import Mathlib

/-!
# Verification of the serverless circuit-breaker Step Functions construct

This file embeds the Step Functions state machine built by
`CircuitBreakerSQSLambda` (src/cdk/lib/circuit-breaker/circuit-breaker.ts)
as a small-step transition system, and the rejitter lambda
(rejitter-sqs-lambda.ts) as a pure function, and proves properties of the
resulting model.

The state machine chain constructed by the CDK code is

  disableMapping → waitState(defaultTimeout) → getTesterMessage
    → triggerLambda → deleteMessageSqs
    → [enableRejitter → wait(rejitterInitialBackoffDelay) → disableRejitter]
    → enabledMapping

with a catch on `triggerLambda` leading to
`incrementFailureAndTime → exceededRetryChoice` and the choice looping back
through `waitAndRetry` to `triggerLambda` while `$.Attempt < 10`.
-/

namespace CircuitBreakerSpec

/-- The construct's props (only the fields the state-machine logic reads).
Mirrors `CircuitBreakerLambdaProps` in circuit-breaker.ts. -/
structure CircuitBreakerLambdaProps where
  rejitter : Bool
  rejitterInitialBackoffDelay : Option Nat
  rejitterDelay : Option Nat
  initialBackoffDelay : Option Nat
deriving DecidableEq, Repr

/-- `const defaultTimeout = props.initialBackoffDelay ?? 10;` -/
def defaultTimeout (p : CircuitBreakerLambdaProps) : Nat :=
  p.initialBackoffDelay.getD 10

/-- `const backoffDelay = props.rejitterInitialBackoffDelay ?? 60;` -/
def rejitterBackoffDelay (p : CircuitBreakerLambdaProps) : Nat :=
  p.rejitterInitialBackoffDelay.getD 60

/-- `const rejitterRange = props.rejitterDelay ?? 120;` -/
def rejitterRange (p : CircuitBreakerLambdaProps) : Nat :=
  p.rejitterDelay.getD 120

/-- A Step Functions retry policy as passed to `.addRetry`. -/
structure RetryPolicy where
  intervalSeconds : Nat
  maxAttempts : Nat
  backoffRate : Nat
deriving DecidableEq, Repr

/-- The retry policy attached to the `receiveMessage` task in
`performSqsActionTask`:
`.addRetry({ interval: Duration.seconds(10), maxAttempts: 5, backoffRate: 2 })`. -/
def performSqsActionRetryPolicy : RetryPolicy :=
  { intervalSeconds := 10, maxAttempts := 5, backoffRate := 2 }

/-- `MaxNumberOfMessages: 1` in the `receiveMessage` parameters of
`performSqsActionTask`. -/
def performSqsActionMaxNumberOfMessages : Nat := 1

/-- The gate-toggle tasks built by `toggleEventSourceMapping` attach no
retry policy (`addRetry` is never called on them). -/
def toggleEventSourceRetryPolicy : Option RetryPolicy := none

/-- The `deleteMessage` task built by `deleteSqsTaskAction` attaches no
retry policy (`addRetry` is never called on it). -/
def deleteSqsRetryPolicy : Option RetryPolicy := none

/-- The rejitter SQS event source is created disabled:
`new SqsEventSource(sqs, { enabled: false })` in `createRejitterLogic`. -/
def rejitterSqsEventSourceEnabled : Bool := false

/-- Result produced by the `resultSelector` of `performSqsActionTask`:
`{ "Messages.$": "$.Messages", Attempt: 1, RetryTime: 10 }`. -/
structure SqsFetchResult where
  messages : List String
  attempt : Nat
  retryTime : Nat
deriving DecidableEq, Repr

/-- The `resultSelector` of `performSqsActionTask`: keeps the received
messages, and sets `Attempt` to the literal 1 and `RetryTime` to the
literal 10. -/
def performSqsActionResultSelector (msgs : List String) : SqsFetchResult :=
  { messages := msgs, attempt := 1, retryTime := 10 }

/-- The states of the generated state machine, in chain order.
`Failed` covers both the explicit `Fail` state ("Exceeded Retry Attempts")
and an execution aborted by an uncaught task error. -/
inductive Phase where
  | Disabling
  | Waiting
  | Fetching
  | Testing
  | Incrementing
  | RetryChoice
  | WaitRetry
  | Deleting
  | EnablingRejitter
  | WaitRejitter
  | DisablingRejitter
  | Enabling
  | Restored
  | Failed
deriving DecidableEq, Repr

/-- Execution state: the JSON payload fields (`Messages`, `Attempt`,
`RetryTime`), the externally visible effect state (gate and rejitter
event-source enablement), and history variables recording what the
execution has done (probe invocations, fetches, wait durations). -/
structure SfnState where
  phase : Phase
  messages : List String
  attempt : Nat
  retryTime : Nat
  gateEnabled : Bool
  rejitterEnabled : Bool
  probeCount : Nat
  fetchCount : Nat
  waits : List Nat
  retryWaits : List Nat
deriving DecidableEq, Repr

/-- Environment oracle: outcomes of the fallible external calls made by
the execution.  `transientFails` is the number of leading transient
failures of the `receiveMessage` call; `probeOk k` is the outcome of the
k-th (0-indexed) invocation of the worker lambda on the probe message. -/
structure Env where
  disableOk : Bool
  transientFails : Nat
  queue : List String
  probeOk : Nat → Bool
  deleteOk : Bool
  enableRejitterOk : Bool
  disableRejitterOk : Bool
  enableOk : Bool

/-- The `receiveMessage` task succeeds iff its leading transient failures
are covered by its retry policy (one initial try plus `maxAttempts`
retries). -/
def fetchSucceeds (e : Env) : Bool :=
  e.transientFails ≤ performSqsActionRetryPolicy.maxAttempts

/-- The Pass state "On example Fail, Increment Attempt Counter":
`Messages` is passed through, `Attempt := Attempt + 1`, and
`RetryTime := RetryTime + RetryTime` (`JsonPath.mathAdd` of `RetryTime`
with itself). -/
def incrementFailureAndTime (s : SfnState) : SfnState :=
  { s with attempt := s.attempt + 1, retryTime := s.retryTime + s.retryTime }

/-- One step of the state machine.  Faithful to the chain built in the
constructor of `CircuitBreakerSQSLambda`:

* `Disabling`/`Enabling` are the `updateEventSourceMapping` calls on the
  primary event source (no catch, no retry: failure aborts the execution);
* `Waiting` is the fixed `Wait defaultTimeout` state;
* `Fetching` is `performSqsActionTask` with its transport retry policy and
  `resultSelector`;
* `Testing` is `triggerLambda`, whose payload reads
  `$.Messages[0].Body` (an empty message list is a runtime error), with a
  catch (`resultPath: DISCARD`) to `Incrementing`;
* `Incrementing` is the Pass state, `RetryChoice` the
  `Has Exceeded Retry Attempts?` choice (`$.Attempt < 10` retries,
  otherwise the `Fail` state), `WaitRetry` the `Exponential Backoff` wait
  on `$.RetryTime` looping back to `Testing`;
* `Deleting` is `deleteSqsTaskAction` (no catch, no retry);
* the three rejitter states exist only when `props.rejitter` is set;
* `Restored` and `Failed` are terminal (absorbing). -/
def stepCB (p : CircuitBreakerLambdaProps) (e : Env) (s : SfnState) : SfnState :=
  match s.phase with
  | .Disabling =>
      if e.disableOk then { s with phase := .Waiting, gateEnabled := false }
      else { s with phase := .Failed }
  | .Waiting =>
      { s with phase := .Fetching, waits := s.waits ++ [defaultTimeout p] }
  | .Fetching =>
      if fetchSucceeds e then
        let r := performSqsActionResultSelector
          (e.queue.take performSqsActionMaxNumberOfMessages)
        { s with phase := .Testing, messages := r.messages,
                 attempt := r.attempt, retryTime := r.retryTime,
                 fetchCount := s.fetchCount + 1 }
      else { s with phase := .Failed, fetchCount := s.fetchCount + 1 }
  | .Testing =>
      match s.messages.head? with
      | none => { s with phase := .Failed }
      | some _ =>
          if e.probeOk s.probeCount then
            { s with phase := .Deleting, probeCount := s.probeCount + 1 }
          else
            { s with phase := .Incrementing, probeCount := s.probeCount + 1 }
  | .Incrementing =>
      { incrementFailureAndTime s with phase := .RetryChoice }
  | .RetryChoice =>
      if s.attempt < 10 then { s with phase := .WaitRetry }
      else { s with phase := .Failed }
  | .WaitRetry =>
      { s with phase := .Testing, waits := s.waits ++ [s.retryTime],
               retryWaits := s.retryWaits ++ [s.retryTime] }
  | .Deleting =>
      if e.deleteOk then
        { s with phase := if p.rejitter then .EnablingRejitter else .Enabling }
      else { s with phase := .Failed }
  | .EnablingRejitter =>
      if e.enableRejitterOk then
        { s with phase := .WaitRejitter, rejitterEnabled := true }
      else { s with phase := .Failed }
  | .WaitRejitter =>
      { s with phase := .DisablingRejitter,
               waits := s.waits ++ [rejitterBackoffDelay p] }
  | .DisablingRejitter =>
      if e.disableRejitterOk then
        { s with phase := .Enabling, rejitterEnabled := false }
      else { s with phase := .Failed }
  | .Enabling =>
      if e.enableOk then { s with phase := .Restored, gateEnabled := true }
      else { s with phase := .Failed }
  | .Restored => s
  | .Failed => s

/-- The initial state of an execution: the incident has just been
triggered, the primary gate is still enabled, the rejitter event source
was created disabled, and nothing has happened yet. -/
def initState : SfnState :=
  { phase := .Disabling, messages := [], attempt := 0, retryTime := 0,
    gateEnabled := true, rejitterEnabled := rejitterSqsEventSourceEnabled,
    probeCount := 0, fetchCount := 0, waits := [], retryWaits := [] }

/-- The state after `n` steps of the execution. -/
def runCB (p : CircuitBreakerLambdaProps) (e : Env) : Nat → SfnState
  | 0 => initState
  | n + 1 => stepCB p e (runCB p e n)

/-- The props used by the example stack (src/unnamed/part_000):
`{ initialBackoffDelay: 10, rejitter: true }`. -/
def exampleProps : CircuitBreakerLambdaProps :=
  { rejitter := true, rejitterInitialBackoffDelay := none,
    rejitterDelay := none, initialBackoffDelay := some 10 }

/-- Environment in which every external call succeeds and the worker
always fails the probe. -/
def alwaysFailEnv : Env :=
  { disableOk := true, transientFails := 0, queue := ["probe-body"],
    probeOk := fun _ => false, deleteOk := true,
    enableRejitterOk := true, disableRejitterOk := true, enableOk := true }

/-- Environment in which every external call succeeds and the worker
succeeds on every probe. -/
def allOkEnv : Env :=
  { alwaysFailEnv with probeOk := fun _ => true }

/-- `allOkEnv`, but the gate-disable call fails. -/
def disableFailEnv : Env :=
  { allOkEnv with disableOk := false }

/-- `allOkEnv`, but the `deleteMessage` call fails. -/
def deleteFailEnv : Env :=
  { allOkEnv with deleteOk := false }

/-- `allOkEnv`, but the rejitter-disable call fails. -/
def rejitterDisableFailEnv : Env :=
  { allOkEnv with disableRejitterOk := false }

/-- `allOkEnv`, but the gate-enable call fails. -/
def enableFailEnv : Env :=
  { allOkEnv with enableOk := false }

/-- `exampleProps` with a non-default `initialBackoffDelay`. -/
def props20 : CircuitBreakerLambdaProps :=
  { exampleProps with initialBackoffDelay := some 20 }

/-- `e` with its transient-failure count replaced by `t`. -/
def withTransient (e : Env) (t : Nat) : Env :=
  { e with transientFails := t }

/-!
## The rejitter lambda (rejitter-sqs-lambda.ts)

The handler maps each SQS record to a `sendMessage` call with the record's
original body and delay
`Number(INITIAL_DELAY) + Math.floor(Math.random() * (Number(JITTER_DELAY) - 1))`.
`Math.random()` is modelled as a rational in `[0, 1)`, one independent draw
per record.
-/

/-- The rejitter lambda's environment variables, as set by
`createRejitterLogic`. -/
structure RejitterEnv where
  queueUrl : String
  initialDelay : Nat
  jitterDelay : Nat
deriving DecidableEq, Repr

/-- An incoming SQS record as seen by the rejitter handler. -/
structure SQSRecordMsg where
  body : String
deriving DecidableEq, Repr

/-- A `sendMessage` request issued by the rejitter handler. -/
structure SendMessageRequest where
  queueUrl : String
  messageBody : String
  delaySeconds : Int
deriving DecidableEq, Repr

/-- The delay computed for one record:
`INITIAL_DELAY + Math.floor(r * (JITTER_DELAY - 1))` where `r` is the
record's `Math.random()` draw. -/
def rejitterRecordDelay (env : RejitterEnv) (r : ℚ) : Int :=
  (env.initialDelay : Int) + Int.floor (r * ((env.jitterDelay : ℚ) - 1))

/-- The handler's `messages.map(...)` with the index threaded through to
select each record's random draw. -/
def rejitterHandlerGo (env : RejitterEnv) (rand : Nat → ℚ) :
    Nat → List SQSRecordMsg → List SendMessageRequest
  | _, [] => []
  | i, rec :: rest =>
      { queueUrl := env.queueUrl, messageBody := rec.body,
        delaySeconds := rejitterRecordDelay env (rand i) }
        :: rejitterHandlerGo env rand (i + 1) rest

/-- The rejitter lambda handler: one `sendMessage` per incoming record,
with the record's original body and a jittered delay. -/
def rejitterHandler (env : RejitterEnv) (rand : Nat → ℚ)
    (records : List SQSRecordMsg) : List SendMessageRequest :=
  rejitterHandlerGo env rand 0 records

/-- The rejitter environment installed by `createRejitterLogic` under the
example props (defaults 60 and 120). -/
def exampleRejitterEnv : RejitterEnv :=
  { queueUrl := "queue-url", initialDelay := 60, jitterDelay := 120 }

/-!
## Invariants of the transition system
-/

/-- Relation between the attempt counter and the number of probe
invocations performed: `Attempt` is one ahead of the probe count when a
probe is pending, equal to it right after a failed probe, and the choice
guard `$.Attempt < 10` caps the probe count at 9. -/
def InvAttempt (s : SfnState) : Prop :=
  s.probeCount ≤ 9 ∧
  ((s.phase = Phase.Disabling ∨ s.phase = Phase.Waiting ∨
      s.phase = Phase.Fetching) → s.probeCount = 0) ∧
  ((s.phase = Phase.Testing ∨ s.phase = Phase.WaitRetry) →
    s.attempt = s.probeCount + 1 ∧ s.probeCount ≤ 8) ∧
  (s.phase = Phase.Incrementing → s.attempt = s.probeCount) ∧
  (s.phase = Phase.RetryChoice → s.attempt = s.probeCount + 1)

/-- Once the gate-disable step has succeeded, the gate is enabled exactly
in the `Restored` terminal state. -/
def InvGate (s : SfnState) : Prop :=
  s.gateEnabled = true ↔ s.phase = Phase.Restored

/-- The `receiveMessage` task runs at most once per execution. -/
def InvFetch (s : SfnState) : Prop :=
  ((s.phase = Phase.Disabling ∨ s.phase = Phase.Waiting ∨
      s.phase = Phase.Fetching) → s.fetchCount = 0) ∧
  s.fetchCount ≤ 1

/-- The rejitter event source is enabled only between a successful
rejitter-enable step and the rejitter-disable step — or in a `Failed`
terminal state reached because the rejitter-disable call itself failed. -/
def InvRejitter (e : Env) (s : SfnState) : Prop :=
  s.rejitterEnabled = true →
    s.phase = Phase.WaitRejitter ∨ s.phase = Phase.DisablingRejitter ∨
      (s.phase = Phase.Failed ∧ e.disableRejitterOk = false)

/-!
## Helper lemmas
-/

theorem stepCB_failed (p : CircuitBreakerLambdaProps) (e : Env)
    (s : SfnState) (h : s.phase = Phase.Failed) : stepCB p e s = s := by
  simp [stepCB, h]

theorem runCB_invariant (p : CircuitBreakerLambdaProps) (e : Env)
    (P : SfnState → Prop) (h0 : P initState)
    (hstep : ∀ s, P s → P (stepCB p e s)) : ∀ n, P (runCB p e n)
  | 0 => h0
  | n + 1 => hstep _ (runCB_invariant p e P h0 hstep n)

theorem runCB_disableFail (p : CircuitBreakerLambdaProps) (e : Env)
    (h : e.disableOk = false) :
    ∀ n, 1 ≤ n → runCB p e n = { initState with phase := Phase.Failed }
  | 0, hn => absurd hn (by omega)
  | 1, _ => by simp [runCB, stepCB, initState, h]
  | n + 2, _ => by
      show stepCB p e (runCB p e (n + 1)) = _
      rw [runCB_disableFail p e h (n + 1) (by omega)]
      exact stepCB_failed _ _ _ rfl

theorem invAttempt_step (p : CircuitBreakerLambdaProps) (e : Env)
    (s : SfnState) (h : InvAttempt s) : InvAttempt (stepCB p e s) := by
  obtain ⟨h1, h2, h3, h4, h5⟩ := h
  cases hph : s.phase
  case Disabling =>
    have hc := h2 (Or.inl hph)
    by_cases hd : e.disableOk <;>
      simp_all [InvAttempt, stepCB, hph, hd]
  case Waiting =>
    have hc := h2 (Or.inr (Or.inl hph))
    simp_all [InvAttempt, stepCB, hph]
  case Fetching =>
    have hc := h2 (Or.inr (Or.inr hph))
    by_cases hf : fetchSucceeds e <;>
      simp_all [InvAttempt, stepCB, hph, hf, performSqsActionResultSelector]
  case Testing =>
    have hc := h3 (Or.inl hph)
    cases hm : s.messages.head?
    case none => simp_all [InvAttempt, stepCB, hph, hm]
    case some m =>
      by_cases hp : e.probeOk s.probeCount <;>
        (simp_all [InvAttempt, stepCB, hph, hm, hp]; try omega)
  case Incrementing =>
    have hc := h4 hph
    simp_all [InvAttempt, stepCB, hph, incrementFailureAndTime]
  case RetryChoice =>
    have hc := h5 hph
    simp only [stepCB, hph]
    split_ifs with ha <;> (simp_all [InvAttempt]; try omega)
  case WaitRetry =>
    have hc := h3 (Or.inr hph)
    simp_all [InvAttempt, stepCB, hph]
  case Deleting =>
    by_cases hd : e.deleteOk <;>
      simp_all [InvAttempt, stepCB, hph, hd]
    by_cases hr : p.rejitter <;> simp_all
  case EnablingRejitter =>
    by_cases hd : e.enableRejitterOk <;>
      simp_all [InvAttempt, stepCB, hph, hd]
  case WaitRejitter =>
    simp_all [InvAttempt, stepCB, hph]
  case DisablingRejitter =>
    by_cases hd : e.disableRejitterOk <;>
      simp_all [InvAttempt, stepCB, hph, hd]
  case Enabling =>
    by_cases hd : e.enableOk <;>
      simp_all [InvAttempt, stepCB, hph, hd]
  case Restored =>
    simp_all [InvAttempt, stepCB, hph]
  case Failed =>
    simp_all [InvAttempt, stepCB, hph]

theorem invAttempt_run (p : CircuitBreakerLambdaProps) (e : Env) (n : Nat) :
    InvAttempt (runCB p e n) :=
  runCB_invariant p e InvAttempt
    (by simp [InvAttempt, initState]) (invAttempt_step p e) n

theorem invGate_step (p : CircuitBreakerLambdaProps) (e : Env)
    (s : SfnState) (h : InvGate s) : InvGate (stepCB p e s) := by
  cases hph : s.phase
  case Disabling =>
    by_cases hd : e.disableOk <;> simp_all [InvGate, stepCB, hph, hd]
  case Waiting => simp_all [InvGate, stepCB, hph]
  case Fetching =>
    by_cases hf : fetchSucceeds e <;>
      simp_all [InvGate, stepCB, hph, hf, performSqsActionResultSelector]
  case Testing =>
    cases hm : s.messages.head?
    case none => simp_all [InvGate, stepCB, hph, hm]
    case some m =>
      by_cases hp : e.probeOk s.probeCount <;>
        simp_all [InvGate, stepCB, hph, hm, hp]
  case Incrementing =>
    simp_all [InvGate, stepCB, hph, incrementFailureAndTime]
  case RetryChoice =>
    simp only [stepCB, hph]
    split_ifs with ha <;> simp_all [InvGate]
  case WaitRetry => simp_all [InvGate, stepCB, hph]
  case Deleting =>
    by_cases hd : e.deleteOk <;> by_cases hr : p.rejitter <;>
      simp_all [InvGate, stepCB, hph, hd, hr]
  case EnablingRejitter =>
    by_cases hd : e.enableRejitterOk <;> simp_all [InvGate, stepCB, hph, hd]
  case WaitRejitter => simp_all [InvGate, stepCB, hph]
  case DisablingRejitter =>
    by_cases hd : e.disableRejitterOk <;> simp_all [InvGate, stepCB, hph, hd]
  case Enabling =>
    by_cases hd : e.enableOk <;> simp_all [InvGate, stepCB, hph, hd]
  case Restored => simp_all [InvGate, stepCB, hph]
  case Failed => simp_all [InvGate, stepCB, hph]

theorem invGate_run (p : CircuitBreakerLambdaProps) (e : Env)
    (hd : e.disableOk = true) : ∀ n, 1 ≤ n → InvGate (runCB p e n)
  | 0, hn => absurd hn (by omega)
  | 1, _ => by simp [InvGate, runCB, stepCB, initState, hd]
  | n + 2, _ =>
      invGate_step p e _ (invGate_run p e hd (n + 1) (by omega))

theorem invFetch_step (p : CircuitBreakerLambdaProps) (e : Env)
    (s : SfnState) (h : InvFetch s) : InvFetch (stepCB p e s) := by
  obtain ⟨h1, h2⟩ := h
  cases hph : s.phase
  case Disabling =>
    have hc := h1 (Or.inl hph)
    by_cases hd : e.disableOk <;> simp_all [InvFetch, stepCB, hph, hd]
  case Waiting =>
    have hc := h1 (Or.inr (Or.inl hph))
    simp_all [InvFetch, stepCB, hph]
  case Fetching =>
    have hc := h1 (Or.inr (Or.inr hph))
    by_cases hf : fetchSucceeds e <;>
      simp_all [InvFetch, stepCB, hph, hf, performSqsActionResultSelector]
  case Testing =>
    cases hm : s.messages.head?
    case none => simp_all [InvFetch, stepCB, hph, hm]
    case some m =>
      by_cases hp : e.probeOk s.probeCount <;>
        simp_all [InvFetch, stepCB, hph, hm, hp]
  case Incrementing =>
    simp_all [InvFetch, stepCB, hph, incrementFailureAndTime]
  case RetryChoice =>
    simp only [stepCB, hph]
    split_ifs with ha <;> simp_all [InvFetch]
  case WaitRetry => simp_all [InvFetch, stepCB, hph]
  case Deleting =>
    by_cases hd : e.deleteOk <;> by_cases hr : p.rejitter <;>
      simp_all [InvFetch, stepCB, hph, hd, hr]
  case EnablingRejitter =>
    by_cases hd : e.enableRejitterOk <;> simp_all [InvFetch, stepCB, hph, hd]
  case WaitRejitter => simp_all [InvFetch, stepCB, hph]
  case DisablingRejitter =>
    by_cases hd : e.disableRejitterOk <;> simp_all [InvFetch, stepCB, hph, hd]
  case Enabling =>
    by_cases hd : e.enableOk <;> simp_all [InvFetch, stepCB, hph, hd]
  case Restored => simp_all [InvFetch, stepCB, hph]
  case Failed => simp_all [InvFetch, stepCB, hph]

theorem invFetch_run (p : CircuitBreakerLambdaProps) (e : Env) (n : Nat) :
    InvFetch (runCB p e n) :=
  runCB_invariant p e InvFetch
    (by simp [InvFetch, initState]) (invFetch_step p e) n

theorem invRejitter_step (p : CircuitBreakerLambdaProps) (e : Env)
    (s : SfnState) (h : InvRejitter e s) : InvRejitter e (stepCB p e s) := by
  cases hph : s.phase
  case Disabling =>
    by_cases hd : e.disableOk <;> simp_all [InvRejitter, stepCB, hph, hd]
  case Waiting => simp_all [InvRejitter, stepCB, hph]
  case Fetching =>
    by_cases hf : fetchSucceeds e <;>
      simp_all [InvRejitter, stepCB, hph, hf, performSqsActionResultSelector]
  case Testing =>
    cases hm : s.messages.head?
    case none => simp_all [InvRejitter, stepCB, hph, hm]
    case some m =>
      by_cases hp : e.probeOk s.probeCount <;>
        simp_all [InvRejitter, stepCB, hph, hm, hp]
  case Incrementing =>
    simp_all [InvRejitter, stepCB, hph, incrementFailureAndTime]
  case RetryChoice =>
    simp only [stepCB, hph]
    split_ifs with ha <;> simp_all [InvRejitter]
  case WaitRetry => simp_all [InvRejitter, stepCB, hph]
  case Deleting =>
    by_cases hd : e.deleteOk <;> by_cases hr : p.rejitter <;>
      simp_all [InvRejitter, stepCB, hph, hd, hr]
  case EnablingRejitter =>
    by_cases hd : e.enableRejitterOk <;>
      simp_all [InvRejitter, stepCB, hph, hd]
  case WaitRejitter => simp_all [InvRejitter, stepCB, hph]
  case DisablingRejitter =>
    by_cases hd : e.disableRejitterOk <;>
      simp_all [InvRejitter, stepCB, hph, hd]
  case Enabling =>
    by_cases hd : e.enableOk <;> simp_all [InvRejitter, stepCB, hph, hd]
  case Restored => simp_all [InvRejitter, stepCB, hph]
  case Failed => simp_all [InvRejitter, stepCB, hph]

theorem invRejitter_run (p : CircuitBreakerLambdaProps) (e : Env) (n : Nat) :
    InvRejitter e (runCB p e n) :=
  runCB_invariant p e (InvRejitter e)
    (by simp [InvRejitter, initState, rejitterSqsEventSourceEnabled])
    (invRejitter_step p e) n

/-!
## Lemmas about the rejitter lambda
-/

theorem rejitterRecordDelay_bounds (env : RejitterEnv) (r : ℚ)
    (hJ : 1 ≤ env.jitterDelay) (h0 : 0 ≤ r) (h1 : r < 1) :
    (env.initialDelay : Int) ≤ rejitterRecordDelay env r ∧
      rejitterRecordDelay env r ≤
        (env.initialDelay : Int) + (env.jitterDelay : Int) - 1 := by
  have hJ' : (1 : ℚ) ≤ (env.jitterDelay : ℚ) := by exact_mod_cast hJ
  have hJ0 : (0 : ℚ) ≤ (env.jitterDelay : ℚ) - 1 := by linarith
  have hlow : (0 : Int) ≤ Int.floor (r * ((env.jitterDelay : ℚ) - 1)) := by
    apply Int.le_floor.mpr
    push_cast
    exact mul_nonneg h0 hJ0
  have hmul : r * ((env.jitterDelay : ℚ) - 1) ≤ (env.jitterDelay : ℚ) - 1 := by
    calc r * ((env.jitterDelay : ℚ) - 1)
        ≤ 1 * ((env.jitterDelay : ℚ) - 1) :=
          mul_le_mul_of_nonneg_right (le_of_lt h1) hJ0
      _ = (env.jitterDelay : ℚ) - 1 := one_mul _
  have hcast : ((env.jitterDelay : ℚ) - 1) =
      (((env.jitterDelay : Int) - 1 : Int) : ℚ) := by push_cast; ring
  have hhigh : Int.floor (r * ((env.jitterDelay : ℚ) - 1)) ≤
      (env.jitterDelay : Int) - 1 :=
    calc Int.floor (r * ((env.jitterDelay : ℚ) - 1))
        ≤ Int.floor ((env.jitterDelay : ℚ) - 1) := Int.floor_mono hmul
      _ = (env.jitterDelay : Int) - 1 := by rw [hcast, Int.floor_intCast]
  unfold rejitterRecordDelay
  omega

theorem rejitterHandlerGo_spec (env : RejitterEnv) (rand : Nat → ℚ)
    (hJ : 1 ≤ env.jitterDelay) (hr : ∀ i, 0 ≤ rand i ∧ rand i < 1) :
    ∀ (i : Nat) (records : List SQSRecordMsg),
      ((rejitterHandlerGo env rand i records).map
          SendMessageRequest.messageBody = records.map SQSRecordMsg.body) ∧
      (∀ req ∈ rejitterHandlerGo env rand i records,
        (env.initialDelay : Int) ≤ req.delaySeconds ∧
          req.delaySeconds ≤
            (env.initialDelay : Int) + (env.jitterDelay : Int) - 1)
  | _, [] => by simp [rejitterHandlerGo]
  | i, rec :: rest => by
      have ih := rejitterHandlerGo_spec env rand hJ hr (i + 1) rest
      refine ⟨by simp [rejitterHandlerGo, ih.1], ?_⟩
      intro req hreq
      rcases List.mem_cons.mp hreq with hhd | htl
      · subst hhd
        exact rejitterRecordDelay_bounds env (rand i) hJ (hr i).1 (hr i).2
      · exact ih.2 req htl

/-!
## Claim theorems
-/

/-- C1, counterexample: with `initialBackoffDelay = 10` and a worker that
always fails, the sequence of retry intervals actually waited is NOT
10,20,40,...,5120 — neither as the waits of the retry loop alone nor with
the fixed initial wait included. -/
theorem c1_counterexample :
    (runCB exampleProps alwaysFailEnv 50).retryWaits ≠
      [10, 20, 40, 80, 160, 320, 640, 1280, 2560, 5120] ∧
    (runCB exampleProps alwaysFailEnv 50).waits ≠
      [10, 20, 40, 80, 160, 320, 640, 1280, 2560, 5120] ∧
    ¬ (5120 ∈ (runCB exampleProps alwaysFailEnv 50).waits) ∧
    (runCB exampleProps alwaysFailEnv 50).phase = Phase.Failed := by
  decide

/-- C1, amended: `RetryTime` starts at the hardcoded 10 and doubles after
each failed probe (`RetryTime := RetryTime + RetryTime`), so with an
always-failing worker the retry intervals actually waited before the
re-invocations are 20,40,80,...,2560 (eight of them); the 10-second wait
is the fixed initial wait before the first probe, and 5120 is computed as
the final `RetryTime` but never waited because the choice terminates the
loop first. -/
theorem c1_retry_intervals :
    (runCB exampleProps alwaysFailEnv 50).retryWaits =
      [20, 40, 80, 160, 320, 640, 1280, 2560] ∧
    (runCB exampleProps alwaysFailEnv 50).waits =
      10 :: [20, 40, 80, 160, 320, 640, 1280, 2560] ∧
    (runCB exampleProps alwaysFailEnv 50).retryTime = 5120 ∧
    (∀ s : SfnState, (incrementFailureAndTime s).retryTime = 2 * s.retryTime) := by
  refine ⟨by decide, by decide, by decide, fun s => ?_⟩
  simp [incrementFailureAndTime]
  omega

/-- C2, counterexample: with an always-failing worker the execution
reaches the `Fail` state with the attempt counter equal to 10 (it never
exceeds 10) after exactly 9 probe invocations, not 10. -/
theorem c2_counterexample :
    (runCB exampleProps alwaysFailEnv 50).phase = Phase.Failed ∧
    (runCB exampleProps alwaysFailEnv 50).attempt = 10 ∧
    (runCB exampleProps alwaysFailEnv 50).probeCount ≠ 10 := by
  decide

/-- C2, amended: the retry choice sends the execution to the `Fail` state
iff the attempt counter has reached 10 (`$.Attempt < 10` is the retry
guard); consequently at most 9 probe invocations ever occur in any
execution, and an always-failing worker performs exactly 9 probes before
`Failed` — never a 10th. -/
theorem c2_retry_ceiling :
    (∀ (p : CircuitBreakerLambdaProps) (e : Env) (n : Nat),
      (runCB p e n).probeCount ≤ 9) ∧
    (∀ (p : CircuitBreakerLambdaProps) (e : Env) (s : SfnState),
      s.phase = Phase.RetryChoice →
      ((stepCB p e s).phase = Phase.Failed ↔ 10 ≤ s.attempt)) ∧
    (runCB exampleProps alwaysFailEnv 50).phase = Phase.Failed ∧
    (runCB exampleProps alwaysFailEnv 50).probeCount = 9 := by
  refine ⟨fun p e n => (invAttempt_run p e n).1, fun p e s hph => ?_,
    by decide, by decide⟩
  simp only [stepCB, hph]
  split_ifs with ha <;> simp <;> omega

/-- Witness for `c2_retry_ceiling` at concrete inputs. -/
theorem c2_witness :
    (runCB exampleProps alwaysFailEnv 50).probeCount ≤ 9 ∧
    ((stepCB exampleProps alwaysFailEnv
        { initState with phase := Phase.RetryChoice, attempt := 10 }).phase =
          Phase.Failed ↔
      10 ≤ ({ initState with
        phase := Phase.RetryChoice, attempt := 10 } : SfnState).attempt) :=
  ⟨c2_retry_ceiling.1 exampleProps alwaysFailEnv 50,
   c2_retry_ceiling.2.1 exampleProps alwaysFailEnv _ rfl⟩

/-- C3: every `sendMessage` issued by the rejitter handler re-enqueues the
record's original body, and its delay is an integer in the closed range
`[initialDelay, initialDelay + jitterDelay - 1]` (with the installed
defaults 60 and 120, in `[60, 179]`). -/
theorem c3_rejitter_delay_range :
    ∀ (env : RejitterEnv) (rand : Nat → ℚ) (records : List SQSRecordMsg),
      1 ≤ env.jitterDelay →
      (∀ i, 0 ≤ rand i ∧ rand i < 1) →
      ((rejitterHandler env rand records).map SendMessageRequest.messageBody
          = records.map SQSRecordMsg.body) ∧
      (∀ req ∈ rejitterHandler env rand records,
        (env.initialDelay : Int) ≤ req.delaySeconds ∧
          req.delaySeconds ≤
            (env.initialDelay : Int) + (env.jitterDelay : Int) - 1) :=
  fun env rand records hJ hr =>
    rejitterHandlerGo_spec env rand hJ hr 0 records

/-- Witness for `c3_rejitter_delay_range` at the installed defaults with a
zero random draw: the single record's body is preserved and its delay of
60 lies in `[60, 179]`. -/
theorem c3_witness :
    (rejitterHandler exampleRejitterEnv (fun _ => 0)
        [{ body := "payload" }]).map SendMessageRequest.messageBody =
      ["payload"] ∧
    (60 : Int) ≤ (⟨"queue-url", "payload", 60⟩ : SendMessageRequest).delaySeconds ∧
    (⟨"queue-url", "payload", 60⟩ : SendMessageRequest).delaySeconds ≤ 179 := by
  have h := c3_rejitter_delay_range exampleRejitterEnv (fun _ => 0)
    [{ body := "payload" }] (by norm_num [exampleRejitterEnv])
    (fun i => by norm_num)
  refine ⟨by simpa using h.1, ?_⟩
  have hmem : (⟨"queue-url", "payload", 60⟩ : SendMessageRequest) ∈
      rejitterHandler exampleRejitterEnv (fun _ => 0) [{ body := "payload" }] := by
    simp [rejitterHandler, rejitterHandlerGo, rejitterRecordDelay,
      exampleRejitterEnv]
  have hb := h.2 _ hmem
  exact ⟨by exact_mod_cast hb.1, by exact_mod_cast hb.2⟩

/-- C4, counterexample: with `initialBackoffDelay = 20` the state after
the first successful fetch has `RetryTime = 10`, not the configured 20. -/
theorem c4_counterexample :
    (runCB props20 allOkEnv 3).phase = Phase.Testing ∧
    (runCB props20 allOkEnv 3).attempt = 1 ∧
    (runCB props20 allOkEnv 3).retryTime = 10 ∧
    (runCB props20 allOkEnv 3).retryTime ≠ defaultTimeout props20 := by
  decide

/-- C4, amended: on the first successful fetch the incident state is
initialized with `Attempt = 1` and `RetryTime = 10`, a literal in the
`resultSelector` that is independent of the configured
`initialBackoffDelay`; the configured value only sets the duration of the
fixed initial wait state. -/
theorem c4_fetch_initializes :
    (∀ msgs : List String,
      (performSqsActionResultSelector msgs).attempt = 1 ∧
      (performSqsActionResultSelector msgs).retryTime = 10 ∧
      (performSqsActionResultSelector msgs).messages = msgs) ∧
    (∀ (p : CircuitBreakerLambdaProps) (e : Env),
      e.disableOk = true → fetchSucceeds e = true →
      (runCB p e 3).phase = Phase.Testing ∧
      (runCB p e 3).attempt = 1 ∧
      (runCB p e 3).retryTime = 10 ∧
      (runCB p e 2).waits = [defaultTimeout p]) := by
  refine ⟨fun msgs => ⟨rfl, rfl, rfl⟩, fun p e hd hf => ?_⟩
  simp [runCB, stepCB, initState, hd, hf, performSqsActionResultSelector]

/-- Witness for `c4_fetch_initializes` at concrete inputs. -/
theorem c4_witness :
    (runCB exampleProps allOkEnv 3).phase = Phase.Testing ∧
    (runCB exampleProps allOkEnv 3).attempt = 1 ∧
    (runCB exampleProps allOkEnv 3).retryTime = 10 ∧
    (runCB exampleProps allOkEnv 2).waits = [defaultTimeout exampleProps] :=
  c4_fetch_initializes.2 exampleProps allOkEnv rfl rfl

/-- C5, counterexample: in the execution where the gate-disable call
fails, the incident reaches the `Failed` terminal with the gate still
enabled — the gate is not disabled for the span from incident start to the
terminal state. -/
theorem c5_counterexample :
    (runCB exampleProps disableFailEnv 5).phase = Phase.Failed ∧
    (runCB exampleProps disableFailEnv 5).gateEnabled = true := by
  decide

/-- C5, amended: in every execution in which the gate-disable call
succeeds, from that step onward the gate is enabled exactly in the
`Restored` terminal state — it stays disabled through every intermediate
state and every `Failed` terminal, and the gate-enable is performed iff
the incident reaches `Restored` (after the rejitter stage, which precedes
the enable step in the chain). -/
theorem c5_gate_iff_restored :
    (∀ (p : CircuitBreakerLambdaProps) (e : Env) (s : SfnState),
      s.phase = Phase.Disabling → e.disableOk = true →
      (stepCB p e s).gateEnabled = false) ∧
    (∀ (p : CircuitBreakerLambdaProps) (e : Env) (n : Nat),
      e.disableOk = true → 1 ≤ n →
      ((runCB p e n).gateEnabled = true ↔
        (runCB p e n).phase = Phase.Restored)) := by
  refine ⟨fun p e s hph hd => ?_, fun p e n hd hn => invGate_run p e hd n hn⟩
  simp [stepCB, hph, hd]

/-- Witness for `c5_gate_iff_restored` at concrete inputs. -/
theorem c5_witness :
    (stepCB exampleProps allOkEnv initState).gateEnabled = false ∧
    ((runCB exampleProps allOkEnv 20).gateEnabled = true ↔
      (runCB exampleProps allOkEnv 20).phase = Phase.Restored) :=
  ⟨c5_gate_iff_restored.1 exampleProps allOkEnv initState rfl rfl,
   c5_gate_iff_restored.2 exampleProps allOkEnv 20 rfl (by omega)⟩

/-- C6: the gate-toggle task carries no retry policy; if the gate-disable
call fails the execution terminates `Failed` with zero probe invocations
performed; and a failed gate-enable call likewise sends the execution to
`Failed`. -/
theorem c6_gate_failure_fatal :
    toggleEventSourceRetryPolicy = none ∧
    (∀ (p : CircuitBreakerLambdaProps) (e : Env) (n : Nat),
      e.disableOk = false → 1 ≤ n →
      (runCB p e n).phase = Phase.Failed ∧ (runCB p e n).probeCount = 0) ∧
    (∀ (p : CircuitBreakerLambdaProps) (e : Env) (s : SfnState),
      s.phase = Phase.Enabling → e.enableOk = false →
      (stepCB p e s).phase = Phase.Failed) := by
  refine ⟨rfl, fun p e n hd hn => ?_, fun p e s hph he => ?_⟩
  · rw [runCB_disableFail p e hd n hn]
    exact ⟨rfl, rfl⟩
  · simp [stepCB, hph, he]

/-- Witness for `c6_gate_failure_fatal` at concrete inputs. -/
theorem c6_witness :
    ((runCB exampleProps disableFailEnv 5).phase = Phase.Failed ∧
      (runCB exampleProps disableFailEnv 5).probeCount = 0) ∧
    (stepCB exampleProps enableFailEnv
        { initState with phase := Phase.Enabling }).phase = Phase.Failed :=
  ⟨c6_gate_failure_fatal.2.1 exampleProps disableFailEnv 5 rfl (by omega),
   c6_gate_failure_fatal.2.2 exampleProps enableFailEnv _ rfl rfl⟩

/-- C7: the `deleteMessage` task carries no retry policy, and a failure of
the delete-after-success call sends the execution to the `Failed`
terminal; concretely, a worker that succeeds on the first probe but whose
probe message cannot be deleted ends `Failed`. -/
theorem c7_delete_failure_fatal :
    deleteSqsRetryPolicy = none ∧
    (∀ (p : CircuitBreakerLambdaProps) (e : Env) (s : SfnState),
      s.phase = Phase.Deleting → e.deleteOk = false →
      (stepCB p e s).phase = Phase.Failed) ∧
    (runCB exampleProps deleteFailEnv 6).phase = Phase.Failed ∧
    (runCB exampleProps deleteFailEnv 6).probeCount = 1 := by
  refine ⟨rfl, fun p e s hph hd => ?_, by decide, by decide⟩
  simp [stepCB, hph, hd]

/-- Witness for `c7_delete_failure_fatal` at concrete inputs. -/
theorem c7_witness :
    (stepCB exampleProps deleteFailEnv
        { initState with phase := Phase.Deleting }).phase = Phase.Failed :=
  c7_delete_failure_fatal.2.1 exampleProps deleteFailEnv _ rfl rfl

/-- C8: the probe fetch asks for at most one message
(`MaxNumberOfMessages: 1`) and carries the separate transport retry policy
`{ interval: 10s, maxAttempts: 5, backoffRate: 2 }`; whatever the number
of transient transport failures absorbed by that policy, the state after
the fetch has the business attempt counter equal to 1 and at most one
message. -/
theorem c8_transport_retry_policy :
    performSqsActionMaxNumberOfMessages = 1 ∧
    performSqsActionRetryPolicy =
      { intervalSeconds := 10, maxAttempts := 5, backoffRate := 2 } ∧
    (∀ (p : CircuitBreakerLambdaProps) (e : Env) (t : Nat),
      e.disableOk = true → t ≤ performSqsActionRetryPolicy.maxAttempts →
      (runCB p (withTransient e t) 3).phase = Phase.Testing ∧
      (runCB p (withTransient e t) 3).attempt = 1 ∧
      (runCB p (withTransient e t) 3).messages.length ≤ 1) := by
  refine ⟨rfl, rfl, fun p e t hd ht => ?_⟩
  have hf : fetchSucceeds (withTransient e t) = true := by
    simpa [fetchSucceeds, withTransient] using ht
  have hd' : (withTransient e t).disableOk = true := hd
  simp [runCB, stepCB, initState, hd', hf, performSqsActionResultSelector,
    performSqsActionMaxNumberOfMessages, List.length_take]

/-- Witness for `c8_transport_retry_policy` at concrete inputs (five
leading transient failures are absorbed; the attempt counter is still
1). -/
theorem c8_witness :
    (runCB exampleProps (withTransient allOkEnv 5) 3).phase = Phase.Testing ∧
    (runCB exampleProps (withTransient allOkEnv 5) 3).attempt = 1 ∧
    (runCB exampleProps (withTransient allOkEnv 5) 3).messages.length ≤ 1 :=
  c8_transport_retry_policy.2.2 exampleProps allOkEnv 5 rfl (by decide)

/-- C9: the backoff Pass state increments the attempt counter by exactly
1, doubles `RetryTime`, and leaves the fetched probe message unchanged;
the retry wait loops straight back to the probe task (no new fetch), and
in any execution the fetch task runs at most once. -/
theorem c9_backoff_frame :
    (∀ s : SfnState,
      (incrementFailureAndTime s).attempt = s.attempt + 1 ∧
      (incrementFailureAndTime s).retryTime = 2 * s.retryTime ∧
      (incrementFailureAndTime s).messages = s.messages) ∧
    (∀ (p : CircuitBreakerLambdaProps) (e : Env) (s : SfnState),
      s.phase = Phase.Incrementing →
      (stepCB p e s).messages = s.messages ∧
      (stepCB p e s).attempt = s.attempt + 1 ∧
      (stepCB p e s).retryTime = 2 * s.retryTime ∧
      (stepCB p e s).fetchCount = s.fetchCount) ∧
    (∀ (p : CircuitBreakerLambdaProps) (e : Env) (s : SfnState),
      s.phase = Phase.WaitRetry →
      (stepCB p e s).phase = Phase.Testing ∧
      (stepCB p e s).messages = s.messages ∧
      (stepCB p e s).fetchCount = s.fetchCount) ∧
    (∀ (p : CircuitBreakerLambdaProps) (e : Env) (n : Nat),
      (runCB p e n).fetchCount ≤ 1) := by
  refine ⟨fun s => ⟨rfl, by simp [incrementFailureAndTime]; omega, rfl⟩,
    fun p e s hph => ?_, fun p e s hph => ?_,
    fun p e n => (invFetch_run p e n).2⟩
  · refine ⟨?_, ?_, ?_, ?_⟩ <;>
      (simp [stepCB, hph, incrementFailureAndTime]; try omega)
  · exact ⟨by simp [stepCB, hph], by simp [stepCB, hph], by simp [stepCB, hph]⟩

/-- Witness for `c9_backoff_frame` at concrete inputs. -/
theorem c9_witness :
    ((stepCB exampleProps alwaysFailEnv
        { initState with phase := Phase.Incrementing, attempt := 1, retryTime := 10 }).attempt = 1 + 1 ∧
      (stepCB exampleProps alwaysFailEnv
        { initState with phase := Phase.Incrementing, attempt := 1, retryTime := 10 }).retryTime = 2 * 10) ∧
    (stepCB exampleProps alwaysFailEnv
        { initState with phase := Phase.WaitRetry }).phase = Phase.Testing ∧
    (runCB exampleProps alwaysFailEnv 50).fetchCount ≤ 1 :=
  ⟨⟨(c9_backoff_frame.2.1 exampleProps alwaysFailEnv _ rfl).2.1,
    (c9_backoff_frame.2.1 exampleProps alwaysFailEnv _ rfl).2.2.1⟩,
   (c9_backoff_frame.2.2.1 exampleProps alwaysFailEnv _ rfl).1,
   c9_backoff_frame.2.2.2 exampleProps alwaysFailEnv 50⟩

/-- C10, counterexample: in the execution where the rejitter-disable call
fails, the incident terminates `Failed` with the secondary drain still
enabled — backlog units can keep flowing through the rejitter path after
the rejitter-disable step was issued. -/
theorem c10_counterexample :
    (runCB exampleProps rejitterDisableFailEnv 10).phase = Phase.Failed ∧
    (runCB exampleProps rejitterDisableFailEnv 10).rejitterEnabled = true := by
  decide

/-- C10, amended: the rejitter event source is created disabled, and in
every execution the secondary drain is enabled only in the window between
the success of the rejitter-enable step and the rejitter-disable step —
which is issued unconditionally after a wait of
`rejitterInitialBackoffDelay` seconds — except that a failed
rejitter-disable call terminates the execution `Failed` with the drain
still enabled. -/
theorem c10_rejitter_window :
    rejitterSqsEventSourceEnabled = false ∧
    initState.rejitterEnabled = false ∧
    (∀ (p : CircuitBreakerLambdaProps) (e : Env) (n : Nat),
      (runCB p e n).rejitterEnabled = true →
      (runCB p e n).phase = Phase.WaitRejitter ∨
        (runCB p e n).phase = Phase.DisablingRejitter ∨
        ((runCB p e n).phase = Phase.Failed ∧
          e.disableRejitterOk = false)) ∧
    (∀ (p : CircuitBreakerLambdaProps) (e : Env) (s : SfnState),
      s.phase = Phase.WaitRejitter →
      (stepCB p e s).phase = Phase.DisablingRejitter ∧
      (stepCB p e s).waits = s.waits ++ [rejitterBackoffDelay p]) := by
  refine ⟨rfl, rfl, fun p e n => invRejitter_run p e n, fun p e s hph => ?_⟩
  exact ⟨by simp [stepCB, hph], by simp [stepCB, hph]⟩

/-- Witness for `c10_rejitter_window` at concrete inputs. -/
theorem c10_witness :
    ((runCB exampleProps allOkEnv 7).phase = Phase.WaitRejitter ∨
      (runCB exampleProps allOkEnv 7).phase = Phase.DisablingRejitter ∨
      ((runCB exampleProps allOkEnv 7).phase = Phase.Failed ∧
        allOkEnv.disableRejitterOk = false)) ∧
    ((stepCB exampleProps allOkEnv (runCB exampleProps allOkEnv 6)).phase =
        Phase.DisablingRejitter ∧
      (stepCB exampleProps allOkEnv (runCB exampleProps allOkEnv 6)).waits =
        (runCB exampleProps allOkEnv 6).waits ++
          [rejitterBackoffDelay exampleProps]) :=
  ⟨c10_rejitter_window.2.2.1 exampleProps allOkEnv 7 (by decide),
   c10_rejitter_window.2.2.2 exampleProps allOkEnv
     (runCB exampleProps allOkEnv 6) (by decide)⟩

end CircuitBreakerSpec
